import Mathlib

/-!
Verification of the picouncil-infra deployment descriptor builders.

The repository contains two Pulumi programs sharing the same structure:
a Tunnel variant (EC2 + Cloudflare Tunnel, `src/index.ts` lines 1-425) and
a Fargate variant (Fargate + ALB, `src/index.ts` lines 427-1095).  Each
program is a single-pass builder: it resolves an image tag from git,
reads configuration values, emits a fixed list of resource declarations,
and renders container definitions and a startup script.

External effects are modelled as oracles passed in as inputs:
  * the config store is a partial map `String → Option String`
    (the result of `config.get`; `config.require` / `config.requireSecret`
    fail on `none`, modelled with `Except`);
  * a git lookup oracle maps a checkout path to the raw stdout of
    `git -C path rev-parse --short HEAD` (`none` = the command threw);
  * values resolved by the provisioning engine (tunnel token, cluster
    name, account id, database endpoint, parameter ARN) are plain inputs.
-/

/-- Drop leading whitespace characters from a character list. -/
def dropLeadingWs : List Char → List Char
  | [] => []
  | c :: cs => if c.isWhitespace then dropLeadingWs cs else c :: cs

/-- JavaScript `String.prototype.trim`: strip leading and trailing
whitespace. -/
def jsTrim (s : String) : String :=
  String.mk ((dropLeadingWs ((dropLeadingWs s.data).reverse)).reverse)

/-- JavaScript `a || b` on an optional string: the left operand wins
iff it is present and truthy (a string is falsy iff it is empty). -/
def jsOrString (a : Option String) (b : String) : String :=
  match a with
  | some s => if s = "" then b else s
  | none => b

/-- `config.require` / `config.requireSecret`: returns the configured
value or throws when the key is absent. -/
def requireConfig (c : String → Option String) (key : String) : Except String String :=
  match c key with
  | some v => Except.ok v
  | none => Except.error ("missing required configuration variable: " ++ key)

/-- Severity of a console log line (`console.log` emits `info`;
nothing in the source emits `warn`). -/
inductive LogLevel where
  | info : LogLevel
  | warn : LogLevel
deriving DecidableEq, Repr

/-- One logged line. -/
structure LogEntry where
  level : LogLevel
  msg : String
deriving DecidableEq, Repr

/-- A resource declaration: Pulumi logical name, resource kind, and the
logical names of the declarations referenced in its input properties. -/
structure Decl where
  name : String
  kind : String
  refs : List String
deriving DecidableEq, Repr

/-- An `aws.ssm.Parameter` declaration (resource name, parameter path,
parameter type, stored value). -/
structure SsmParam where
  resourceName : String
  paramName : String
  paramType : String
  value : String
deriving DecidableEq, Repr

/-- A container environment variable (plaintext name/value pair in the
container definition). -/
structure EnvVar where
  name : String
  value : String
deriving DecidableEq, Repr

/-- A container secret reference: the value is pulled at task start from
the named parameter, not stored in the definition. -/
structure SecretRef where
  name : String
  valueFrom : String
deriving DecidableEq, Repr

namespace Tunnel

/-- `ECR_REGISTRY` constant (line 11). -/
def ECR_REGISTRY : String := "066047414165.dkr.ecr.ap-northeast-2.amazonaws.com"

/-- `DOMAIN` constant (line 13). -/
def DOMAIN : String := "picouncil.com"

/-- `getGitCommit` (lines 23-32): run `git -C projectPath rev-parse
--short HEAD`, trim the output; on failure return the literal fallback. -/
def getGitCommit (git : String → Option String) (projectPath : String) : String :=
  match git projectPath with
  | some out => jsTrim out
  | none => "latest"

/-- `serverCommit` (line 34). -/
def serverCommit (git : String → Option String) : String :=
  getGitCommit git "../picouncil-server"

/-- `serverImage` (lines 35-36): explicit override via JavaScript `||`,
otherwise the registry/repository:commit reference. -/
def serverImage (c : String → Option String) (git : String → Option String) : String :=
  jsOrString (c "serverImage") (ECR_REGISTRY ++ "/picouncil-server:" ++ serverCommit git)

/-- The resource declarations of the Tunnel variant, in source order
(lines 43-413), each with the logical names of the declarations its
input properties reference. -/
def graph : List Decl :=
  [ { name := "picouncil-images", kind := "cloudflare.R2Bucket", refs := [] },
    { name := "picouncil-images-public", kind := "cloudflare.R2ManagedDomain", refs := ["picouncil-images"] },
    { name := "picouncil-images-domain", kind := "cloudflare.R2CustomDomain", refs := ["picouncil-images"] },
    { name := "picouncil-root", kind := "cloudflare.DnsRecord", refs := [] },
    { name := "picouncil-www", kind := "cloudflare.DnsRecord", refs := [] },
    { name := "picouncil-admin-dns", kind := "cloudflare.DnsRecord", refs := [] },
    { name := "picouncil-api-tunnel", kind := "cloudflare.ZeroTrustTunnelCloudflared", refs := [] },
    { name := "picouncil-api-tunnel-config", kind := "cloudflare.ZeroTrustTunnelCloudflaredConfig", refs := ["picouncil-api-tunnel"] },
    { name := "picouncil-api-dns", kind := "cloudflare.DnsRecord", refs := ["picouncil-api-tunnel"] },
    { name := "picouncil-vpc", kind := "aws.ec2.Vpc", refs := [] },
    { name := "picouncil-subnet", kind := "aws.ec2.Subnet", refs := ["picouncil-vpc"] },
    { name := "picouncil-igw", kind := "aws.ec2.InternetGateway", refs := ["picouncil-vpc"] },
    { name := "picouncil-rt", kind := "aws.ec2.RouteTable", refs := ["picouncil-vpc", "picouncil-igw"] },
    { name := "picouncil-rt-assoc", kind := "aws.ec2.RouteTableAssociation", refs := ["picouncil-subnet", "picouncil-rt"] },
    { name := "picouncil-sg", kind := "aws.ec2.SecurityGroup", refs := ["picouncil-vpc"] },
    { name := "picouncil-ecs-instance-role", kind := "aws.iam.Role", refs := [] },
    { name := "picouncil-ecs-instance-ecs", kind := "aws.iam.RolePolicyAttachment", refs := ["picouncil-ecs-instance-role"] },
    { name := "picouncil-ecs-instance-ssm", kind := "aws.iam.RolePolicyAttachment", refs := ["picouncil-ecs-instance-role"] },
    { name := "picouncil-ecs-instance-profile", kind := "aws.iam.InstanceProfile", refs := ["picouncil-ecs-instance-role"] },
    { name := "picouncil-task-execution-role", kind := "aws.iam.Role", refs := [] },
    { name := "picouncil-task-execution-ecs", kind := "aws.iam.RolePolicyAttachment", refs := ["picouncil-task-execution-role"] },
    { name := "picouncil-task-execution-ecr", kind := "aws.iam.RolePolicyAttachment", refs := ["picouncil-task-execution-role"] },
    { name := "picouncil-task-execution-ssm", kind := "aws.iam.RolePolicy", refs := ["picouncil-task-execution-role"] },
    { name := "picouncil-DATABASE_URL", kind := "aws.ssm.Parameter", refs := [] },
    { name := "picouncil-JWT_SECRET", kind := "aws.ssm.Parameter", refs := [] },
    { name := "picouncil-server", kind := "aws.ecr.Repository", refs := [] },
    { name := "picouncil-server-lifecycle", kind := "aws.ecr.LifecyclePolicy", refs := ["picouncil-server"] },
    { name := "picouncil-logs", kind := "aws.cloudwatch.LogGroup", refs := [] },
    { name := "picouncil-cluster", kind := "aws.ecs.Cluster", refs := [] },
    { name := "picouncil-server-task", kind := "aws.ecs.TaskDefinition", refs := ["picouncil-task-execution-role", "picouncil-logs"] },
    { name := "picouncil-ecs-instance", kind := "aws.ec2.Instance", refs := ["picouncil-ecs-instance-profile", "picouncil-subnet", "picouncil-sg", "picouncil-cluster", "picouncil-api-tunnel"] },
    { name := "picouncil-server-service", kind := "aws.ecs.Service", refs := ["picouncil-cluster", "picouncil-server-task"] } ]

/-- SSM parameter block (lines 251-266): both secrets are read with
`config.requireSecret` (a throw aborts the build), then stored as
`SecureString` parameters. -/
def ssmParams (c : String → Option String) : Except String (List SsmParam) :=
  match requireConfig c "database-url" with
  | Except.error e => Except.error e
  | Except.ok databaseUrl =>
    match requireConfig c "jwt-secret" with
    | Except.error e => Except.error e
    | Except.ok jwtSecret =>
      Except.ok
        [ { resourceName := "picouncil-DATABASE_URL", paramName := "/picouncil/DATABASE_URL",
            paramType := "SecureString", value := databaseUrl },
          { resourceName := "picouncil-JWT_SECRET", paramName := "/picouncil/JWT_SECRET",
            paramType := "SecureString", value := jwtSecret } ]

/-- Environment variables of the server container (lines 322-326):
fixed literals, no secret value appears here. -/
def containerEnv : List EnvVar :=
  [ { name := "PORT", value := "8080" },
    { name := "ENVIRONMENT", value := "production" },
    { name := "FRONTEND_URL", value := "https://" ++ DOMAIN } ]

/-- Secret references of the server container (lines 327-330): values
are pulled from the SSM parameters by path at task start. -/
def containerSecrets : List SecretRef :=
  [ { name := "DATABASE_URL", valueFrom := "/picouncil/DATABASE_URL" },
    { name := "JWT_SECRET", valueFrom := "/picouncil/JWT_SECRET" } ]

/-- Startup script template (lines 361-386), split at its two
interpolation holes: part 1 precedes the cluster name, part 2 sits
between the cluster name and the tunnel token (ending in the token
flag), part 3 follows the token. -/
def userDataPart1 : String := "#!/bin/bash\necho ECS_CLUSTER="

/-- Middle of the startup script template (between the interpolated
cluster name and the interpolated tunnel token). -/
def userDataPart2 : String :=
  " >> /etc/ecs/ecs.config\n\n# Install cloudflared (ARM64)\ncurl -L https://github.com/cloudflare/cloudflared/releases/latest/download/cloudflared-linux-arm64 -o /usr/local/bin/cloudflared\nchmod +x /usr/local/bin/cloudflared\n\ncat > /etc/systemd/system/cloudflared.service << EOF\n[Unit]\nDescription=Cloudflare Tunnel\nAfter=network.target\n\n[Service]\nType=simple\nExecStart=/usr/local/bin/cloudflared tunnel --no-autoupdate run --token "

/-- Tail of the startup script template (after the interpolated tunnel
token). -/
def userDataPart3 : String :=
  "\nRestart=always\nRestartSec=5\n\n[Install]\nWantedBy=multi-user.target\nEOF\n\nsystemctl daemon-reload\nsystemctl enable cloudflared\nsystemctl start cloudflared\n"

/-- The rendered startup script (lines 360-387) before base64 encoding:
the template with the resolved cluster name and tunnel token filled in.
(The source then base64-encodes this string; the encoding is not
modelled, the claims concern the script content.) -/
def userDataScript (clusterName token : String) : String :=
  userDataPart1 ++ clusterName ++ userDataPart2 ++ token ++ userDataPart3

/-- Inputs of one Tunnel-variant invocation: the config store, the git
oracle, and the engine-resolved cluster name and tunnel token consumed
by the startup script. -/
structure Inputs where
  config : String → Option String
  git : String → Option String
  clusterName : String
  tunnelToken : String

/-- Everything the Tunnel variant emits that the claims observe. -/
structure Output where
  serverImage : String
  logs : List LogEntry
  decls : List Decl
  params : List SsmParam
  env : List EnvVar
  secretRefs : List SecretRef
  instanceType : String
  userData : String
deriving DecidableEq, Repr

/-- The Tunnel-variant builder, following source order: required
Cloudflare ids (lines 17-18), image resolution and log (34-38), the
required tunnel secret (102), the SSM parameters (251-266), instance
type (354) and startup script (360-387). -/
def build (i : Inputs) : Except String Output :=
  match requireConfig i.config "cloudflareAccountId" with
  | Except.error e => Except.error e
  | Except.ok _cfAccount =>
    match requireConfig i.config "cloudflareZoneId" with
    | Except.error e => Except.error e
    | Except.ok _cfZone =>
      let img := serverImage i.config i.git
      let logs := [LogEntry.mk LogLevel.info ("Server image: " ++ img)]
      match requireConfig i.config "cloudflareTunnelSecret" with
      | Except.error e => Except.error e
      | Except.ok _tunnelSecret =>
        match ssmParams i.config with
        | Except.error e => Except.error e
        | Except.ok params =>
          Except.ok
            { serverImage := img, logs := logs, decls := graph, params := params,
              env := containerEnv, secretRefs := containerSecrets,
              instanceType := jsOrString (i.config "instanceType") "t4g.nano",
              userData := userDataScript i.clusterName i.tunnelToken }

end Tunnel

namespace Fargate

/-- `DOMAIN` constant (line 437). -/
def DOMAIN : String := "picouncil.com"

/-- The git state seen by the Fargate variant: `byPath` is the stdout of
`git -C path rev-parse --short HEAD` per path, `cwd` the stdout of the
same command run in the current directory (line 449); `none` = threw. -/
structure GitState where
  byPath : String → Option String
  cwd : Option String

/-- `getGitCommit` (lines 441-454): try the project path; on failure try
the current directory; on a second failure return the literal fallback. -/
def getGitCommit (g : GitState) (projectPath : String) : String :=
  match g.byPath projectPath with
  | some out => jsTrim out
  | none =>
    match g.cwd with
    | some out => jsTrim out
    | none => "latest"

/-- `ECR_REGISTRY` (line 438), as a function of the resolved AWS account
id.  (The source interpolates the deferred `getCallerIdentityOutput`
value into a template literal; the resolved account id is taken as an
input here.) -/
def ecrRegistry (accountId : String) : String :=
  accountId ++ ".dkr.ecr.ap-northeast-2.amazonaws.com"

/-- `serverCommit` (line 456). -/
def serverCommit (g : GitState) : String := getGitCommit g "../picouncil-server"

/-- `adminCommit` (line 457). -/
def adminCommit (g : GitState) : String := getGitCommit g "../picouncil-admin"

/-- `serverImage` (line 458). -/
def serverImage (c : String → Option String) (g : GitState) (accountId : String) : String :=
  jsOrString (c "serverImage") (ecrRegistry accountId ++ "/picouncil-server:" ++ serverCommit g)

/-- `adminImage` (line 459). -/
def adminImage (c : String → Option String) (g : GitState) (accountId : String) : String :=
  jsOrString (c "adminImage") (ecrRegistry accountId ++ "/picouncil-admin:" ++ adminCommit g)

/-- The resource declarations of the Fargate variant, in source order
(lines 467-1084), each with the logical names of the declarations its
input properties reference. -/
def graph : List Decl :=
  [ { name := "picouncil-vpc", kind := "aws.ec2.Vpc", refs := [] },
    { name := "picouncil-public-a", kind := "aws.ec2.Subnet", refs := ["picouncil-vpc"] },
    { name := "picouncil-public-b", kind := "aws.ec2.Subnet", refs := ["picouncil-vpc"] },
    { name := "picouncil-private-a", kind := "aws.ec2.Subnet", refs := ["picouncil-vpc"] },
    { name := "picouncil-private-b", kind := "aws.ec2.Subnet", refs := ["picouncil-vpc"] },
    { name := "picouncil-igw", kind := "aws.ec2.InternetGateway", refs := ["picouncil-vpc"] },
    { name := "picouncil-public-rt", kind := "aws.ec2.RouteTable", refs := ["picouncil-vpc", "picouncil-igw"] },
    { name := "picouncil-public-a-assoc", kind := "aws.ec2.RouteTableAssociation", refs := ["picouncil-public-a", "picouncil-public-rt"] },
    { name := "picouncil-public-b-assoc", kind := "aws.ec2.RouteTableAssociation", refs := ["picouncil-public-b", "picouncil-public-rt"] },
    { name := "picouncil-nat-eip", kind := "aws.ec2.Eip", refs := [] },
    { name := "picouncil-nat", kind := "aws.ec2.NatGateway", refs := ["picouncil-nat-eip", "picouncil-public-a"] },
    { name := "picouncil-private-rt", kind := "aws.ec2.RouteTable", refs := ["picouncil-vpc", "picouncil-nat"] },
    { name := "picouncil-private-a-assoc", kind := "aws.ec2.RouteTableAssociation", refs := ["picouncil-private-a", "picouncil-private-rt"] },
    { name := "picouncil-private-b-assoc", kind := "aws.ec2.RouteTableAssociation", refs := ["picouncil-private-b", "picouncil-private-rt"] },
    { name := "picouncil-alb-sg", kind := "aws.ec2.SecurityGroup", refs := ["picouncil-vpc"] },
    { name := "picouncil-ecs-sg", kind := "aws.ec2.SecurityGroup", refs := ["picouncil-vpc", "picouncil-alb-sg"] },
    { name := "picouncil-rds-sg", kind := "aws.ec2.SecurityGroup", refs := ["picouncil-vpc", "picouncil-ecs-sg"] },
    { name := "picouncil-db-subnet-group", kind := "aws.rds.SubnetGroup", refs := ["picouncil-private-a", "picouncil-private-b"] },
    { name := "picouncil-db", kind := "aws.rds.Instance", refs := ["picouncil-db-subnet-group", "picouncil-rds-sg"] },
    { name := "picouncil-server", kind := "aws.ecr.Repository", refs := [] },
    { name := "picouncil-server-lifecycle", kind := "aws.ecr.LifecyclePolicy", refs := ["picouncil-server"] },
    { name := "picouncil-admin", kind := "aws.ecr.Repository", refs := [] },
    { name := "picouncil-admin-lifecycle", kind := "aws.ecr.LifecyclePolicy", refs := ["picouncil-admin"] },
    { name := "picouncil-cluster", kind := "aws.ecs.Cluster", refs := [] },
    { name := "picouncil-task-execution-role", kind := "aws.iam.Role", refs := [] },
    { name := "picouncil-task-execution-policy", kind := "aws.iam.RolePolicyAttachment", refs := ["picouncil-task-execution-role"] },
    { name := "picouncil-task-role", kind := "aws.iam.Role", refs := [] },
    { name := "picouncil-task-ssm-policy", kind := "aws.iam.RolePolicy", refs := ["picouncil-task-role"] },
    { name := "picouncil-logs", kind := "aws.cloudwatch.LogGroup", refs := [] },
    { name := "picouncil-jwt-secret", kind := "aws.ssm.Parameter", refs := [] },
    { name := "picouncil-server-task", kind := "aws.ecs.TaskDefinition", refs := ["picouncil-task-execution-role", "picouncil-task-role", "picouncil-db", "picouncil-logs", "picouncil-jwt-secret"] },
    { name := "picouncil-alb", kind := "aws.lb.LoadBalancer", refs := ["picouncil-alb-sg", "picouncil-public-a", "picouncil-public-b"] },
    { name := "picouncil-tg", kind := "aws.lb.TargetGroup", refs := ["picouncil-vpc"] },
    { name := "picouncil-http-listener", kind := "aws.lb.Listener", refs := ["picouncil-alb"] },
    { name := "picouncil-https-listener", kind := "aws.lb.Listener", refs := ["picouncil-alb", "picouncil-tg"] },
    { name := "picouncil-server-service", kind := "aws.ecs.Service", refs := ["picouncil-cluster", "picouncil-server-task", "picouncil-private-a", "picouncil-private-b", "picouncil-ecs-sg", "picouncil-tg"] },
    { name := "picouncil-admin-logs", kind := "aws.cloudwatch.LogGroup", refs := [] },
    { name := "picouncil-admin-task", kind := "aws.ecs.TaskDefinition", refs := ["picouncil-task-execution-role", "picouncil-task-role", "picouncil-admin-logs"] },
    { name := "picouncil-admin-tg", kind := "aws.lb.TargetGroup", refs := ["picouncil-vpc"] },
    { name := "picouncil-admin-rule", kind := "aws.lb.ListenerRule", refs := ["picouncil-https-listener", "picouncil-admin-tg"] },
    { name := "picouncil-admin-service", kind := "aws.ecs.Service", refs := ["picouncil-cluster", "picouncil-admin-task", "picouncil-private-a", "picouncil-private-b", "picouncil-ecs-sg", "picouncil-admin-tg"] },
    { name := "picouncil-files", kind := "aws.s3.BucketV2", refs := [] },
    { name := "picouncil-files-versioning", kind := "aws.s3.BucketVersioningV2", refs := ["picouncil-files"] },
    { name := "picouncil-files-encryption", kind := "aws.s3.BucketServerSideEncryptionConfigurationV2", refs := ["picouncil-files"] },
    { name := "picouncil-files-public-access", kind := "aws.s3.BucketPublicAccessBlock", refs := ["picouncil-files"] } ]

/-- `jwtSecretParam` (lines 792-797): the one SSM parameter of this
variant, a `SecureString` holding the required `jwtSecret` value. -/
def jwtSecretParam (v : String) : SsmParam :=
  { resourceName := "picouncil-jwt-secret", paramName := "/picouncil/jwt-secret",
    paramType := "SecureString", value := v }

/-- SSM parameter block of the Fargate variant (lines 790-797): the
secret is read with `config.requireSecret` and stored. -/
def ssmParams (c : String → Option String) : Except String (List SsmParam) :=
  match requireConfig c "jwtSecret" with
  | Except.error e => Except.error e
  | Except.ok jwtSecret => Except.ok [jwtSecretParam jwtSecret]

/-- The fixed text produced by JavaScript string conversion of a pulumi
`Output` that has not been lifted: `Output.toString` returns a constant
unsupported-operation message (abbreviated to its first sentence here;
only its constancy matters, it never carries the wrapped value). -/
def outputToStringPlaceholder : String :=
  "Calling [toString] on an [Output<T>] is not supported."

/-- Environment variables of the server container (lines 820-825).  The
`DATABASE_URL` entry is rendered by a plain template literal inside an
`apply` that lifts only `database.endpoint` and `logGroup.name`; the
`dbPassword` value (line 626) is still an unresolved `Output` there, so
its interpolation invokes `Output.toString` and yields the constant
placeholder text, never the secret value. -/
def serverEnv (dbEndpoint : String) : List EnvVar :=
  [ { name := "PORT", value := "8080" },
    { name := "ENVIRONMENT", value := "production" },
    { name := "DATABASE_URL",
      value := "postgres://picouncil:" ++ outputToStringPlaceholder ++ "@" ++ dbEndpoint ++ "/picouncil?sslmode=require" },
    { name := "FRONTEND_URL", value := "https://" ++ DOMAIN } ]

/-- Secret references of the server container (lines 826-831): the JWT
secret is pulled from the SSM parameter by ARN at task start. -/
def serverSecrets (jwtParamArn : String) : List SecretRef :=
  [ { name := "JWT_SECRET", valueFrom := jwtParamArn } ]

/-- Environment variables of the admin container (lines 968-972): fixed
literals, no secret value. -/
def adminEnv : List EnvVar :=
  [ { name := "NODE_ENV", value := "production" },
    { name := "NEXT_PUBLIC_API_URL", value := "https://api." ++ DOMAIN },
    { name := "NEXT_PUBLIC_SITE_URL", value := "https://admin." ++ DOMAIN } ]

/-- Inputs of one Fargate-variant invocation: the config store, the git
state, and the engine-resolved account id, database endpoint and JWT
parameter ARN consumed by the container definitions. -/
structure Inputs where
  config : String → Option String
  git : GitState
  accountId : String
  dbEndpoint : String
  jwtParamArn : String

/-- Everything the Fargate variant emits that the claims observe. -/
structure Output where
  serverImage : String
  adminImage : String
  logs : List LogEntry
  decls : List Decl
  params : List SsmParam
  serverEnv : List EnvVar
  serverSecrets : List SecretRef
  adminEnv : List EnvVar
  certificateArn : String
deriving DecidableEq, Repr

/-- The Fargate-variant builder, following source order: image
resolution and logs (lines 456-462), the required database password
(626), the required JWT secret and its parameter (790-797), the server
container definition (808-831), certificate ARN (905), the admin
container definition (956-990). -/
def build (i : Inputs) : Except String Output :=
  let simg := serverImage i.config i.git i.accountId
  let aimg := adminImage i.config i.git i.accountId
  let logs :=
    [ LogEntry.mk LogLevel.info ("Deploying picouncil-server image: " ++ simg),
      LogEntry.mk LogLevel.info ("Deploying picouncil-admin image: " ++ aimg) ]
  match requireConfig i.config "dbPassword" with
  | Except.error e => Except.error e
  | Except.ok _dbPassword =>
    match ssmParams i.config with
    | Except.error e => Except.error e
    | Except.ok params =>
      Except.ok
        { serverImage := simg, adminImage := aimg, logs := logs, decls := graph,
          params := params, serverEnv := serverEnv i.dbEndpoint,
          serverSecrets := serverSecrets i.jwtParamArn, adminEnv := adminEnv,
          certificateArn := jsOrString (i.config "certificateArn") "" }

end Fargate

/-- Reference edge between positions of a declaration list: the
declaration at position `i` references, among its input properties, the
declaration at position `j` (by logical name). -/
def RefEdge (g : List Decl) (i j : Fin g.length) : Prop :=
  (g.get j).name ∈ (g.get i).refs

instance (g : List Decl) (i j : Fin g.length) : Decidable (RefEdge g i j) :=
  inferInstanceAs (Decidable ((g.get j).name ∈ (g.get i).refs))

/-- Direct-or-transitive dependency between declarations of a list:
the transitive closure of the reference edges. -/
def DependsOn (g : List Decl) : Fin g.length → Fin g.length → Prop :=
  Relation.TransGen (RefEdge g)

/-- A present config key makes `requireConfig` succeed with its value. -/
theorem requireConfig_some {c : String → Option String} {k v : String} (h : c k = some v) :
    requireConfig c k = Except.ok v := by
  unfold requireConfig
  rw [h]

/-- An absent config key makes `requireConfig` throw. -/
theorem requireConfig_none {c : String → Option String} {k : String} (h : c k = none) :
    requireConfig c k = Except.error ("missing required configuration variable: " ++ k) := by
  unfold requireConfig
  rw [h]

/-- C1: for every invocation of the image tag resolver `getGitCommit`
(in either variant): if the checkout at the given path is valid and its
short commit hash (the trimmed git output) is `abc1234`, the resolved
tag is `abc1234`; if the git lookup fails at every attempted path, the
resolved tag is the fallback literal `latest`. -/
theorem C1_image_tag_resolution :
    (∀ (git : String → Option String) (p out : String),
      git p = some out → jsTrim out = "abc1234" → Tunnel.getGitCommit git p = "abc1234")
    ∧ (∀ (git : String → Option String) (p : String),
      git p = none → Tunnel.getGitCommit git p = "latest")
    ∧ (∀ (g : Fargate.GitState) (p out : String),
      g.byPath p = some out → jsTrim out = "abc1234" → Fargate.getGitCommit g p = "abc1234")
    ∧ (∀ (g : Fargate.GitState) (p : String),
      g.byPath p = none → g.cwd = none → Fargate.getGitCommit g p = "latest") := by
  refine ⟨?_, ?_, ?_, ?_⟩
  · intro git p out h1 h2
    unfold Tunnel.getGitCommit
    rw [h1]
    exact h2
  · intro git p h1
    unfold Tunnel.getGitCommit
    rw [h1]
  · intro g p out h1 h2
    unfold Fargate.getGitCommit
    rw [h1]
    exact h2
  · intro g p h1 h2
    unfold Fargate.getGitCommit
    rw [h1, h2]

/-- Witness for C1: the resolver evaluated on concrete git oracles. -/
theorem C1_witness :
    Tunnel.getGitCommit (fun _ => some "abc1234\n") "../picouncil-server" = "abc1234"
    ∧ Tunnel.getGitCommit (fun _ => none) "../picouncil-server" = "latest"
    ∧ Fargate.getGitCommit ⟨fun _ => some "abc1234\n", none⟩ "../picouncil-server" = "abc1234"
    ∧ Fargate.getGitCommit ⟨fun _ => none, none⟩ "../picouncil-server" = "latest" :=
  ⟨C1_image_tag_resolution.1 _ _ "abc1234\n" rfl (by decide),
   C1_image_tag_resolution.2.1 _ _ rfl,
   C1_image_tag_resolution.2.2.1 _ _ "abc1234\n" rfl (by decide),
   C1_image_tag_resolution.2.2.2 _ _ rfl rfl⟩

/-- Counterexample to C2 as stated: an explicit override equal to the
empty string is supplied, yet the built image reference is the
git-derived one, not the override verbatim (JavaScript `||` treats the
empty string as falsy). -/
theorem C2_counterexample :
    (fun _ => (some "" : Option String)) "serverImage" = some ""
    ∧ Tunnel.serverImage (fun _ => some "") (fun _ => some "abc1234\n") ≠ "" := by
  exact ⟨rfl, by decide⟩

/-- C2 (amended): a supplied *non-empty* image tag override is used
verbatim as the built image reference, in both variants, regardless of
what git-derived resolution would have produced. -/
theorem C2_override_precedence :
    (∀ (c git : String → Option String) (v : String),
      c "serverImage" = some v → v ≠ "" → Tunnel.serverImage c git = v)
    ∧ (∀ (c : String → Option String) (g : Fargate.GitState) (acct v : String),
      c "serverImage" = some v → v ≠ "" → Fargate.serverImage c g acct = v)
    ∧ (∀ (c : String → Option String) (g : Fargate.GitState) (acct v : String),
      c "adminImage" = some v → v ≠ "" → Fargate.adminImage c g acct = v) := by
  refine ⟨?_, ?_, ?_⟩
  · intro c git v h hne
    unfold Tunnel.serverImage jsOrString
    rw [h]
    simp [hne]
  · intro c g acct v h hne
    unfold Fargate.serverImage jsOrString
    rw [h]
    simp [hne]
  · intro c g acct v h hne
    unfold Fargate.adminImage jsOrString
    rw [h]
    simp [hne]

/-- Witness for C2 (amended): a concrete non-empty override wins in all
three places. -/
theorem C2_witness :
    Tunnel.serverImage (fun _ => some "myregistry/myimage:v1") (fun _ => none) = "myregistry/myimage:v1"
    ∧ Fargate.serverImage (fun _ => some "myregistry/myimage:v1") ⟨fun _ => none, none⟩ "123" = "myregistry/myimage:v1"
    ∧ Fargate.adminImage (fun _ => some "myregistry/myimage:v1") ⟨fun _ => none, none⟩ "123" = "myregistry/myimage:v1" :=
  ⟨C2_override_precedence.1 _ _ _ rfl (by decide),
   C2_override_precedence.2.1 _ _ _ _ rfl (by decide),
   C2_override_precedence.2.2 _ _ _ _ rfl (by decide)⟩

/-- C9: an image tag override supplied as the empty string is treated
as absent: the built image reference is the git-derived
registry/repository:commit reference, in both variants. -/
theorem C9_empty_override_ignored :
    (∀ (c git : String → Option String), c "serverImage" = some "" →
      Tunnel.serverImage c git = Tunnel.ECR_REGISTRY ++ "/picouncil-server:" ++ Tunnel.serverCommit git)
    ∧ (∀ (c : String → Option String) (g : Fargate.GitState) (acct : String), c "serverImage" = some "" →
      Fargate.serverImage c g acct = Fargate.ecrRegistry acct ++ "/picouncil-server:" ++ Fargate.serverCommit g)
    ∧ (∀ (c : String → Option String) (g : Fargate.GitState) (acct : String), c "adminImage" = some "" →
      Fargate.adminImage c g acct = Fargate.ecrRegistry acct ++ "/picouncil-admin:" ++ Fargate.adminCommit g) := by
  refine ⟨?_, ?_, ?_⟩
  · intro c git h
    unfold Tunnel.serverImage jsOrString
    rw [h]
    simp
  · intro c g acct h
    unfold Fargate.serverImage jsOrString
    rw [h]
    simp
  · intro c g acct h
    unfold Fargate.adminImage jsOrString
    rw [h]
    simp

/-- Witness for C9: a concrete empty override falls back to the derived
reference. -/
theorem C9_witness :
    Tunnel.serverImage (fun _ => some "") (fun _ => some "abc1234\n") =
      Tunnel.ECR_REGISTRY ++ "/picouncil-server:" ++ Tunnel.serverCommit (fun _ => some "abc1234\n")
    ∧ Fargate.serverImage (fun _ => some "") ⟨fun _ => some "abc1234\n", none⟩ "123" =
      Fargate.ecrRegistry "123" ++ "/picouncil-server:" ++ Fargate.serverCommit ⟨fun _ => some "abc1234\n", none⟩
    ∧ Fargate.adminImage (fun _ => some "") ⟨fun _ => some "abc1234\n", none⟩ "123" =
      Fargate.ecrRegistry "123" ++ "/picouncil-admin:" ++ Fargate.adminCommit ⟨fun _ => some "abc1234\n", none⟩ :=
  ⟨C9_empty_override_ignored.1 _ _ rfl,
   C9_empty_override_ignored.2.1 _ _ _ rfl,
   C9_empty_override_ignored.2.2 _ _ _ rfl⟩

/-- Counterexample to C3 as stated: with the recognized secret values
absent, the build does not silently complete with no parameter
resources: the values are read with `config.requireSecret`, which
throws, so the parameter block fails in both variants. -/
theorem C3_counterexample :
    (fun _ => (none : Option String)) "database-url" = none
    ∧ Tunnel.ssmParams (fun _ => none) =
        Except.error "missing required configuration variable: database-url"
    ∧ Fargate.ssmParams (fun _ => none) =
        Except.error "missing required configuration variable: jwtSecret" :=
  ⟨rfl, rfl, rfl⟩

/-- C3 (amended): a parameter resource is emitted for each recognized
secret name exactly when the build reaches it with a supplied value;
an absent value does not silently skip the resource but aborts the
build with a missing-configuration error (the values are read with
`config.requireSecret`). -/
theorem C3_secret_parameter_provisioning :
    (∀ (c : String → Option String) (dbv jwtv : String),
      c "database-url" = some dbv → c "jwt-secret" = some jwtv →
      Tunnel.ssmParams c = Except.ok
        [ { resourceName := "picouncil-DATABASE_URL", paramName := "/picouncil/DATABASE_URL",
            paramType := "SecureString", value := dbv },
          { resourceName := "picouncil-JWT_SECRET", paramName := "/picouncil/JWT_SECRET",
            paramType := "SecureString", value := jwtv } ])
    ∧ (∀ (c : String → Option String), c "database-url" = none →
      Tunnel.ssmParams c = Except.error "missing required configuration variable: database-url")
    ∧ (∀ (c : String → Option String) (dbv : String),
      c "database-url" = some dbv → c "jwt-secret" = none →
      Tunnel.ssmParams c = Except.error "missing required configuration variable: jwt-secret")
    ∧ (∀ (c : String → Option String) (jwtv : String), c "jwtSecret" = some jwtv →
      Fargate.ssmParams c = Except.ok [Fargate.jwtSecretParam jwtv])
    ∧ (∀ (c : String → Option String), c "jwtSecret" = none →
      Fargate.ssmParams c = Except.error "missing required configuration variable: jwtSecret") := by
  refine ⟨?_, ?_, ?_, ?_, ?_⟩
  · intro c dbv jwtv h1 h2
    unfold Tunnel.ssmParams
    rw [requireConfig_some h1, requireConfig_some h2]
  · intro c h1
    unfold Tunnel.ssmParams
    rw [requireConfig_none h1]
    exact rfl
  · intro c dbv h1 h2
    unfold Tunnel.ssmParams
    rw [requireConfig_some h1, requireConfig_none h2]
    exact rfl
  · intro c jwtv h1
    unfold Fargate.ssmParams
    rw [requireConfig_some h1]
  · intro c h1
    unfold Fargate.ssmParams
    rw [requireConfig_none h1]
    exact rfl

/-- Witness for C3 (amended): concrete configs with both, none, and one
of the recognized secrets supplied. -/
theorem C3_witness :
    Tunnel.ssmParams
        (fun k => if k = "database-url" then some "postgres-url"
          else if k = "jwt-secret" then some "jwt-value" else none) =
      Except.ok
        [ { resourceName := "picouncil-DATABASE_URL", paramName := "/picouncil/DATABASE_URL",
            paramType := "SecureString", value := "postgres-url" },
          { resourceName := "picouncil-JWT_SECRET", paramName := "/picouncil/JWT_SECRET",
            paramType := "SecureString", value := "jwt-value" } ]
    ∧ Tunnel.ssmParams (fun k => if k = "database-url" then some "postgres-url" else none) =
        Except.error "missing required configuration variable: jwt-secret"
    ∧ Fargate.ssmParams (fun k => if k = "jwtSecret" then some "jwt-value" else none) =
        Except.ok [Fargate.jwtSecretParam "jwt-value"] :=
  ⟨C3_secret_parameter_provisioning.1 _ "postgres-url" "jwt-value" (by decide) (by decide),
   C3_secret_parameter_provisioning.2.2.1 _ "postgres-url" (by decide) (by decide),
   C3_secret_parameter_provisioning.2.2.2.1 _ "jwt-value" (by decide)⟩

/-- C10: every SSM parameter declaration that carries a secret value is
declared with type SecureString, in both variants. -/
theorem C10_secret_parameters_secure_string :
    (∀ (c : String → Option String) (ps : List SsmParam), Tunnel.ssmParams c = Except.ok ps →
      ∀ p ∈ ps, p.paramType = "SecureString")
    ∧ (∀ v : String, (Fargate.jwtSecretParam v).paramType = "SecureString")
    ∧ (∀ (c : String → Option String) (ps : List SsmParam), Fargate.ssmParams c = Except.ok ps →
      ∀ p ∈ ps, p.paramType = "SecureString") := by
  refine ⟨?_, ?_, ?_⟩
  · intro c ps h p hp
    unfold Tunnel.ssmParams at h
    rcases hdb : c "database-url" with _ | dbv
    · rw [requireConfig_none hdb] at h
      cases h
    · rw [requireConfig_some hdb] at h
      rcases hjw : c "jwt-secret" with _ | jwtv
      · rw [requireConfig_none hjw] at h
        cases h
      · rw [requireConfig_some hjw] at h
        injection h with h2
        subst h2
        rcases hp with _ | ⟨_, _ | ⟨_, hp⟩⟩
        · rfl
        · rfl
        · cases hp
  · intro v
    rfl
  · intro c ps h p hp
    unfold Fargate.ssmParams at h
    rcases hjw : c "jwtSecret" with _ | jwtv
    · rw [requireConfig_none hjw] at h
      cases h
    · rw [requireConfig_some hjw] at h
      injection h with h2
      subst h2
      rcases hp with _ | ⟨_, hp⟩
      · rfl
      · cases hp

/-- Witness for C10: the concrete parameter lists of both variants
under a concrete config. -/
theorem C10_witness :
    SsmParam.paramType
        { resourceName := "picouncil-DATABASE_URL", paramName := "/picouncil/DATABASE_URL",
          paramType := "SecureString", value := "v" } = "SecureString"
    ∧ SsmParam.paramType (Fargate.jwtSecretParam "v") = "SecureString" :=
  ⟨C10_secret_parameters_secure_string.1 (fun _ => some "v")
      [ { resourceName := "picouncil-DATABASE_URL", paramName := "/picouncil/DATABASE_URL",
          paramType := "SecureString", value := "v" },
        { resourceName := "picouncil-JWT_SECRET", paramName := "/picouncil/JWT_SECRET",
          paramType := "SecureString", value := "v" } ]
      rfl _ (by decide),
   C10_secret_parameters_secure_string.2.1 "v"⟩

/-- A successful Tunnel build emits the fixed container environment and
secret references and the startup script rendered from its inputs. -/
theorem tunnelBuild_ok_shape (i : Tunnel.Inputs) (o : Tunnel.Output)
    (h : Tunnel.build i = Except.ok o) :
    o.env = Tunnel.containerEnv ∧ o.secretRefs = Tunnel.containerSecrets ∧
    o.userData = Tunnel.userDataScript i.clusterName i.tunnelToken := by
  unfold Tunnel.build at h
  rcases ha : i.config "cloudflareAccountId" with _ | a
  · rw [requireConfig_none ha] at h
    cases h
  · rw [requireConfig_some ha] at h
    rcases hz : i.config "cloudflareZoneId" with _ | z
    · rw [requireConfig_none hz] at h
      cases h
    · rw [requireConfig_some hz] at h
      rcases ht : i.config "cloudflareTunnelSecret" with _ | t
      · rw [requireConfig_none ht] at h
        cases h
      · rw [requireConfig_some ht] at h
        rcases hp : Tunnel.ssmParams i.config with e | ps
        · rw [hp] at h
          cases h
        · rw [hp] at h
          injection h with h2
          subst h2
          exact ⟨rfl, rfl, rfl⟩

/-- A successful Fargate build emits the container environments and
secret references rendered from its engine-resolved inputs alone. -/
theorem fargateBuild_ok_shape (i : Fargate.Inputs) (o : Fargate.Output)
    (h : Fargate.build i = Except.ok o) :
    o.serverEnv = Fargate.serverEnv i.dbEndpoint ∧
    o.serverSecrets = Fargate.serverSecrets i.jwtParamArn ∧
    o.adminEnv = Fargate.adminEnv := by
  unfold Fargate.build at h
  rcases hd : i.config "dbPassword" with _ | d
  · rw [requireConfig_none hd] at h
    cases h
  · rw [requireConfig_some hd] at h
    rcases hp : Fargate.ssmParams i.config with e | ps
    · rw [hp] at h
      cases h
    · rw [hp] at h
      injection h with h2
      subst h2
      exact ⟨rfl, rfl, rfl⟩

/-- C4: no secret value supplied to the builder is embedded in the
clear into any other declaration property bag.  The container
definitions are independent of the entire config store (any two
successful builds over any two config stores that agree on the
engine-resolved values render identical container environments, secret
references and startup script); secrets reach the containers only
through valueFrom references; and the Fargate DATABASE_URL entry
renders the constant Output.toString placeholder where the template
literal names the password, since the dbPassword Output is unresolved
there. -/
theorem C4_secret_containment :
    (∀ (i1 i2 : Tunnel.Inputs) (o1 o2 : Tunnel.Output),
      Tunnel.build i1 = Except.ok o1 → Tunnel.build i2 = Except.ok o2 →
      i1.clusterName = i2.clusterName → i1.tunnelToken = i2.tunnelToken →
      o1.env = o2.env ∧ o1.secretRefs = o2.secretRefs ∧ o1.userData = o2.userData)
    ∧ (∀ (i : Tunnel.Inputs) (o : Tunnel.Output), Tunnel.build i = Except.ok o →
      o.env = Tunnel.containerEnv ∧ o.secretRefs =
        [ { name := "DATABASE_URL", valueFrom := "/picouncil/DATABASE_URL" },
          { name := "JWT_SECRET", valueFrom := "/picouncil/JWT_SECRET" } ])
    ∧ (∀ (j1 j2 : Fargate.Inputs) (p1 p2 : Fargate.Output),
      Fargate.build j1 = Except.ok p1 → Fargate.build j2 = Except.ok p2 →
      j1.dbEndpoint = j2.dbEndpoint → j1.jwtParamArn = j2.jwtParamArn →
      p1.serverEnv = p2.serverEnv ∧ p1.serverSecrets = p2.serverSecrets ∧ p1.adminEnv = p2.adminEnv)
    ∧ (∀ ep : String,
        ({ name := "DATABASE_URL",
           value := "postgres://picouncil:" ++ Fargate.outputToStringPlaceholder ++ "@" ++ ep ++ "/picouncil?sslmode=require" } : EnvVar)
          ∈ Fargate.serverEnv ep)
    ∧ (∀ arn : String, Fargate.serverSecrets arn = [{ name := "JWT_SECRET", valueFrom := arn }]) := by
  refine ⟨?_, ?_, ?_, ?_, ?_⟩
  · intro i1 i2 o1 o2 h1 h2 hcn htok
    obtain ⟨e1, s1, u1⟩ := tunnelBuild_ok_shape i1 o1 h1
    obtain ⟨e2, s2, u2⟩ := tunnelBuild_ok_shape i2 o2 h2
    refine ⟨e1.trans e2.symm, s1.trans s2.symm, ?_⟩
    rw [u1, u2, hcn, htok]
  · intro i o h
    obtain ⟨e1, s1, _⟩ := tunnelBuild_ok_shape i o h
    exact ⟨e1, s1⟩
  · intro j1 j2 p1 p2 h1 h2 hep harn
    obtain ⟨e1, s1, a1⟩ := fargateBuild_ok_shape j1 p1 h1
    obtain ⟨e2, s2, a2⟩ := fargateBuild_ok_shape j2 p2 h2
    refine ⟨?_, ?_, a1.trans a2.symm⟩
    · rw [e1, e2, hep]
    · rw [s1, s2, harn]
  · intro ep
    exact List.Mem.tail _ (List.Mem.tail _ (List.Mem.head _))
  · intro arn
    rfl

/-- Witness for C4: two concrete builds per variant whose config stores
supply different secret values yet render identical container property
bags. -/
theorem C4_witness :
    (Tunnel.containerEnv = Tunnel.containerEnv
      ∧ Tunnel.containerSecrets = Tunnel.containerSecrets
      ∧ Tunnel.userDataScript "cn" "tok" = Tunnel.userDataScript "cn" "tok")
    ∧ (Fargate.serverEnv "ep" = Fargate.serverEnv "ep"
      ∧ Fargate.serverSecrets "arn" = Fargate.serverSecrets "arn"
      ∧ Fargate.adminEnv = Fargate.adminEnv) :=
  ⟨C4_secret_containment.1
     { config := fun _ => some "secret-one", git := fun _ => none,
       clusterName := "cn", tunnelToken := "tok" }
     { config := fun _ => some "secret-two", git := fun _ => none,
       clusterName := "cn", tunnelToken := "tok" }
     _ _ rfl rfl rfl rfl,
   C4_secret_containment.2.2.1
     { config := fun _ => some "secret-one", git := ⟨fun _ => none, none⟩,
       accountId := "1", dbEndpoint := "ep", jwtParamArn := "arn" }
     { config := fun _ => some "secret-two", git := ⟨fun _ => none, none⟩,
       accountId := "1", dbEndpoint := "ep", jwtParamArn := "arn" }
     _ _ rfl rfl rfl rfl⟩

/-- Counterexample to C5 as stated: a build in which the git lookup
fails at the project path recovers with the fallback tag, yet its log
contains no warning at all (the only line logged is the informational
image line), so the failure is not accompanied by a logged warning. -/
theorem C5_counterexample :
    Tunnel.getGitCommit (fun _ => none) "../picouncil-server" = "latest"
    ∧ Tunnel.build
        { config := fun k => if k = "serverImage" then none else some "cfg-value",
          git := fun _ => none, clusterName := "picouncil-cluster", tunnelToken := "tok" } =
      Except.ok
        { serverImage := "066047414165.dkr.ecr.ap-northeast-2.amazonaws.com/picouncil-server:latest",
          logs := [ { level := LogLevel.info,
                      msg := "Server image: 066047414165.dkr.ecr.ap-northeast-2.amazonaws.com/picouncil-server:latest" } ],
          decls := Tunnel.graph, params :=
            [ { resourceName := "picouncil-DATABASE_URL", paramName := "/picouncil/DATABASE_URL",
                paramType := "SecureString", value := "cfg-value" },
              { resourceName := "picouncil-JWT_SECRET", paramName := "/picouncil/JWT_SECRET",
                paramType := "SecureString", value := "cfg-value" } ],
          env := Tunnel.containerEnv, secretRefs := Tunnel.containerSecrets,
          instanceType := "cfg-value",
          userData := Tunnel.userDataScript "picouncil-cluster" "tok" } :=
  ⟨rfl, rfl⟩

/-- C5 (amended): a git-lookup failure is recovered locally (fallback
to the secondary path in the Fargate resolver, or to the literal
default) and is never propagated: whether the build succeeds does not
depend on the git oracle at all, and a failed lookup still yields the
fallback-tagged image when no override is set.  However the recovery is
silent: every log line any successful build emits is the single
informational image line, so no warning is ever logged. -/
theorem C5_git_failure_recovery :
    (∀ (git : String → Option String) (p : String), git p = none →
      Tunnel.getGitCommit git p = "latest")
    ∧ (∀ (g : Fargate.GitState) (p out : String), g.byPath p = none → g.cwd = some out →
      Fargate.getGitCommit g p = jsTrim out)
    ∧ (∀ (i j : Tunnel.Inputs), i.config = j.config → i.clusterName = j.clusterName →
      i.tunnelToken = j.tunnelToken → (Tunnel.build i).isOk = (Tunnel.build j).isOk)
    ∧ (∀ (i : Tunnel.Inputs) (o : Tunnel.Output), Tunnel.build i = Except.ok o →
      o.logs = [ { level := LogLevel.info, msg := "Server image: " ++ o.serverImage } ])
    ∧ (∀ (i : Tunnel.Inputs) (o : Tunnel.Output), Tunnel.build i = Except.ok o →
      i.git "../picouncil-server" = none → i.config "serverImage" = none →
      o.serverImage = Tunnel.ECR_REGISTRY ++ "/picouncil-server:latest") := by
  refine ⟨?_, ?_, ?_, ?_, ?_⟩
  · intro git p h
    unfold Tunnel.getGitCommit
    rw [h]
  · intro g p out h1 h2
    unfold Fargate.getGitCommit
    rw [h1, h2]
  · intro i j hc hn ht
    unfold Tunnel.build
    rw [hc, hn, ht]
    rcases ha : j.config "cloudflareAccountId" with _ | a
    · rw [requireConfig_none ha]
    · rw [requireConfig_some ha]
      rcases hz : j.config "cloudflareZoneId" with _ | z
      · rw [requireConfig_none hz]
      · rw [requireConfig_some hz]
        rcases hts : j.config "cloudflareTunnelSecret" with _ | t
        · rw [requireConfig_none hts]
        · rw [requireConfig_some hts]
          rcases hp : Tunnel.ssmParams j.config with e | ps
          · rfl
          · rfl
  · intro i o h
    unfold Tunnel.build at h
    rcases ha : i.config "cloudflareAccountId" with _ | a
    · rw [requireConfig_none ha] at h
      cases h
    · rw [requireConfig_some ha] at h
      rcases hz : i.config "cloudflareZoneId" with _ | z
      · rw [requireConfig_none hz] at h
        cases h
      · rw [requireConfig_some hz] at h
        rcases ht : i.config "cloudflareTunnelSecret" with _ | t
        · rw [requireConfig_none ht] at h
          cases h
        · rw [requireConfig_some ht] at h
          rcases hp : Tunnel.ssmParams i.config with e | ps
          · rw [hp] at h
            cases h
          · rw [hp] at h
            injection h with h2
            subst h2
            rfl
  · intro i o h hgit hover
    unfold Tunnel.build at h
    rcases ha : i.config "cloudflareAccountId" with _ | a
    · rw [requireConfig_none ha] at h
      cases h
    · rw [requireConfig_some ha] at h
      rcases hz : i.config "cloudflareZoneId" with _ | z
      · rw [requireConfig_none hz] at h
        cases h
      · rw [requireConfig_some hz] at h
        rcases ht : i.config "cloudflareTunnelSecret" with _ | t
        · rw [requireConfig_none ht] at h
          cases h
        · rw [requireConfig_some ht] at h
          rcases hp : Tunnel.ssmParams i.config with e | ps
          · rw [hp] at h
            cases h
          · rw [hp] at h
            injection h with h2
            subst h2
            show Tunnel.serverImage i.config i.git = _
            unfold Tunnel.serverImage jsOrString Tunnel.serverCommit Tunnel.getGitCommit
            rw [hover, hgit]
            rfl

/-- Witness for C5 (amended): concrete failing git oracles, two
concrete builds differing only in the git oracle, and concrete
successful builds whose logs and fallback image are evaluated. -/
theorem C5_witness :
    Tunnel.getGitCommit (fun _ => none) "../picouncil-server" = "latest"
    ∧ Fargate.getGitCommit ⟨fun _ => none, some "abc1234\n"⟩ "../picouncil-server" = jsTrim "abc1234\n"
    ∧ (Tunnel.build
        { config := fun _ => some "v", git := fun _ => none,
          clusterName := "cn", tunnelToken := "tok" }).isOk =
      (Tunnel.build
        { config := fun _ => some "v", git := fun _ => some "abc1234\n",
          clusterName := "cn", tunnelToken := "tok" }).isOk
    ∧ Tunnel.Output.logs
        { serverImage := "v", logs := [ { level := LogLevel.info, msg := "Server image: v" } ],
          decls := Tunnel.graph,
          params := [ { resourceName := "picouncil-DATABASE_URL", paramName := "/picouncil/DATABASE_URL",
                        paramType := "SecureString", value := "v" },
                      { resourceName := "picouncil-JWT_SECRET", paramName := "/picouncil/JWT_SECRET",
                        paramType := "SecureString", value := "v" } ],
          env := Tunnel.containerEnv, secretRefs := Tunnel.containerSecrets,
          instanceType := "v", userData := Tunnel.userDataScript "cn" "tok" } =
        [ { level := LogLevel.info, msg := "Server image: " ++ "v" } ]
    ∧ Tunnel.Output.serverImage
        { serverImage := "066047414165.dkr.ecr.ap-northeast-2.amazonaws.com/picouncil-server:latest",
          logs := [ { level := LogLevel.info,
                      msg := "Server image: 066047414165.dkr.ecr.ap-northeast-2.amazonaws.com/picouncil-server:latest" } ],
          decls := Tunnel.graph,
          params := [ { resourceName := "picouncil-DATABASE_URL", paramName := "/picouncil/DATABASE_URL",
                        paramType := "SecureString", value := "v" },
                      { resourceName := "picouncil-JWT_SECRET", paramName := "/picouncil/JWT_SECRET",
                        paramType := "SecureString", value := "v" } ],
          env := Tunnel.containerEnv, secretRefs := Tunnel.containerSecrets,
          instanceType := "v", userData := Tunnel.userDataScript "cn" "tok" } =
        Tunnel.ECR_REGISTRY ++ "/picouncil-server:latest" :=
  ⟨C5_git_failure_recovery.1 _ _ rfl,
   C5_git_failure_recovery.2.1 ⟨fun _ => none, some "abc1234\n"⟩ "../picouncil-server" "abc1234\n" rfl rfl,
   C5_git_failure_recovery.2.2.1 _ _ rfl rfl rfl,
   C5_git_failure_recovery.2.2.2.1
     { config := fun _ => some "v", git := fun _ => none, clusterName := "cn", tunnelToken := "tok" } _ rfl,
   C5_git_failure_recovery.2.2.2.2
     { config := fun k => if k = "serverImage" then none else some "v", git := fun _ => none,
       clusterName := "cn", tunnelToken := "tok" } _ rfl (by decide) (by decide)⟩

/-- C6: the builders are deterministic functions of their inputs
(config store, git state, engine-resolved values): two invocations with
identical inputs emit identical outputs (declarations, parameters,
images, logs, scripts), in both variants. -/
theorem C6_build_deterministic :
    (∀ i1 i2 : Tunnel.Inputs, i1 = i2 → Tunnel.build i1 = Tunnel.build i2)
    ∧ (∀ j1 j2 : Fargate.Inputs, j1 = j2 → Fargate.build j1 = Fargate.build j2) :=
  ⟨fun _ _ h => congrArg Tunnel.build h, fun _ _ h => congrArg Fargate.build h⟩

/-- Witness for C6: two runs on one concrete input agree. -/
theorem C6_witness :
    Tunnel.build
      { config := fun _ => some "v", git := fun _ => some "abc1234\n",
        clusterName := "cn", tunnelToken := "tok" } =
      Tunnel.build
      { config := fun _ => some "v", git := fun _ => some "abc1234\n",
        clusterName := "cn", tunnelToken := "tok" }
    ∧ Fargate.build
      { config := fun _ => some "v", git := ⟨fun _ => some "abc1234\n", none⟩,
        accountId := "1", dbEndpoint := "ep", jwtParamArn := "arn" } =
      Fargate.build
      { config := fun _ => some "v", git := ⟨fun _ => some "abc1234\n", none⟩,
        accountId := "1", dbEndpoint := "ep", jwtParamArn := "arn" } :=
  ⟨C6_build_deterministic.1 _ _ rfl, C6_build_deterministic.2 _ _ rfl⟩

/-- If every step of a relation on `Fin n` strictly decreases the
index, so does its transitive closure. -/
theorem transGen_fin_lt {n : Nat} {E : Fin n → Fin n → Prop}
    (hE : ∀ i j, E i j → (j : Nat) < (i : Nat)) :
    ∀ i j, Relation.TransGen E i j → (j : Nat) < (i : Nat) := by
  intro i j h
  induction h with
  | single h1 => exact hE _ _ h1
  | tail _ h1 ih => exact lt_trans (hE _ _ h1) ih

/-- C7: in both variants the declaration names are distinct, every
reference edge points to a declaration that occurs strictly earlier in
source order, and so does every direct-or-transitive dependency.  In
particular the reference graph is acyclic (a cycle would give an index
strictly below itself) and source order is a topological order of the
references. -/
theorem C7_reference_graph_acyclic :
    ((Tunnel.graph.map Decl.name).Nodup ∧ (Fargate.graph.map Decl.name).Nodup)
    ∧ (∀ i j, RefEdge Tunnel.graph i j → (j : Nat) < (i : Nat))
    ∧ (∀ i j, RefEdge Fargate.graph i j → (j : Nat) < (i : Nat))
    ∧ (∀ i j, DependsOn Tunnel.graph i j → (j : Nat) < (i : Nat))
    ∧ (∀ i j, DependsOn Fargate.graph i j → (j : Nat) < (i : Nat)) := by
  have h1 : ∀ i j, RefEdge Tunnel.graph i j → (j : Nat) < (i : Nat) := by decide
  have h2 : ∀ i j, RefEdge Fargate.graph i j → (j : Nat) < (i : Nat) := by decide
  exact ⟨⟨by decide, by decide⟩, h1, h2, transGen_fin_lt h1, transGen_fin_lt h2⟩

/-- Witness for C7: a concrete edge (the subnet references the VPC) and
a concrete transitive dependency in each graph. -/
theorem C7_witness :
    ((⟨9, by decide⟩ : Fin Tunnel.graph.length) : Nat) < ((⟨10, by decide⟩ : Fin Tunnel.graph.length) : Nat)
    ∧ ((⟨0, by decide⟩ : Fin Fargate.graph.length) : Nat) < ((⟨1, by decide⟩ : Fin Fargate.graph.length) : Nat)
    ∧ ((⟨9, by decide⟩ : Fin Tunnel.graph.length) : Nat) < ((⟨13, by decide⟩ : Fin Tunnel.graph.length) : Nat)
    ∧ ((⟨0, by decide⟩ : Fin Fargate.graph.length) : Nat) < ((⟨7, by decide⟩ : Fin Fargate.graph.length) : Nat) :=
  ⟨C7_reference_graph_acyclic.2.1 ⟨10, by decide⟩ ⟨9, by decide⟩ (by decide),
   C7_reference_graph_acyclic.2.2.1 ⟨1, by decide⟩ ⟨0, by decide⟩ (by decide),
   C7_reference_graph_acyclic.2.2.2.1 ⟨13, by decide⟩ ⟨9, by decide⟩
     (Relation.TransGen.tail
       (Relation.TransGen.single
         ((by decide) : RefEdge Tunnel.graph ⟨13, by decide⟩ ⟨12, by decide⟩))
       ((by decide) : RefEdge Tunnel.graph ⟨12, by decide⟩ ⟨9, by decide⟩)),
   C7_reference_graph_acyclic.2.2.2.2 ⟨7, by decide⟩ ⟨0, by decide⟩
     (Relation.TransGen.tail
       (Relation.TransGen.single
         ((by decide) : RefEdge Fargate.graph ⟨7, by decide⟩ ⟨1, by decide⟩))
       ((by decide) : RefEdge Fargate.graph ⟨1, by decide⟩ ⟨0, by decide⟩))⟩

/-- String append is associative. -/
theorem strAppend_assoc (a b c : String) : a ++ b ++ c = a ++ (b ++ c) := by
  rcases a with ⟨x⟩
  rcases b with ⟨y⟩
  rcases c with ⟨z⟩
  show String.mk (x ++ y ++ z) = String.mk (x ++ (y ++ z))
  rw [List.append_assoc]

/-- Counterexample to C8 as stated: in the scenario with no secret
value supplied (tunnel secret absent; the Cloudflare ids present so the
build reaches it), the build does not complete with zero secret
parameters: it aborts at the required tunnel secret with a
missing-configuration error. -/
theorem C8_counterexample :
    Tunnel.build
      { config := fun k => if k = "cloudflareAccountId" then some "acct"
          else if k = "cloudflareZoneId" then some "zone" else none,
        git := fun _ => some "abc1234\n", clusterName := "picouncil-cluster",
        tunnelToken := "tok" } =
      Except.error "missing required configuration variable: cloudflareTunnelSecret" := rfl

set_option maxRecDepth 8192 in
/-- C8 (amended): with no image override the tag is still derived from
git (the project path is fixed at ../picouncil-server in the code), but
a missing secret value does not yield a completed build with zero
secret parameters: the build aborts at the required tunnel secret.
And every build that does complete renders a startup script that
contains a tunnel token block. -/
theorem C8_missing_secret_aborts :
    (∀ (c git : String → Option String),
      c "serverImage" = none → git "../picouncil-server" = some "abc1234\n" →
      Tunnel.serverImage c git = Tunnel.ECR_REGISTRY ++ "/picouncil-server:" ++ jsTrim "abc1234\n")
    ∧ (∀ (i : Tunnel.Inputs) (a z : String),
      i.config "cloudflareAccountId" = some a → i.config "cloudflareZoneId" = some z →
      i.config "cloudflareTunnelSecret" = none →
      Tunnel.build i = Except.error "missing required configuration variable: cloudflareTunnelSecret")
    ∧ (∀ (i : Tunnel.Inputs) (o : Tunnel.Output), Tunnel.build i = Except.ok o →
      ∃ before after : String,
        o.userData = before ++ ("--token " ++ i.tunnelToken) ++ after) := by
  refine ⟨?_, ?_, ?_⟩
  · intro c git h1 h2
    unfold Tunnel.serverImage jsOrString Tunnel.serverCommit Tunnel.getGitCommit
    rw [h1, h2]
  · intro i a z h1 h2 h3
    unfold Tunnel.build
    rw [requireConfig_some h1, requireConfig_some h2, requireConfig_none h3]
    exact rfl
  · intro i o h
    unfold Tunnel.build at h
    rcases ha : i.config "cloudflareAccountId" with _ | a
    · rw [requireConfig_none ha] at h
      cases h
    · rw [requireConfig_some ha] at h
      rcases hz : i.config "cloudflareZoneId" with _ | z
      · rw [requireConfig_none hz] at h
        cases h
      · rw [requireConfig_some hz] at h
        rcases ht : i.config "cloudflareTunnelSecret" with _ | t
        · rw [requireConfig_none ht] at h
          cases h
        · rw [requireConfig_some ht] at h
          rcases hp : Tunnel.ssmParams i.config with e | ps
          · rw [hp] at h
            cases h
          · rw [hp] at h
            injection h with h2
            subst h2
            refine ⟨Tunnel.userDataPart1 ++ i.clusterName ++
              " >> /etc/ecs/ecs.config\n\n# Install cloudflared (ARM64)\ncurl -L https://github.com/cloudflare/cloudflared/releases/latest/download/cloudflared-linux-arm64 -o /usr/local/bin/cloudflared\nchmod +x /usr/local/bin/cloudflared\n\ncat > /etc/systemd/system/cloudflared.service << EOF\n[Unit]\nDescription=Cloudflare Tunnel\nAfter=network.target\n\n[Service]\nType=simple\nExecStart=/usr/local/bin/cloudflared tunnel --no-autoupdate run ",
              Tunnel.userDataPart3, ?_⟩
            show Tunnel.userDataScript i.clusterName i.tunnelToken = _
            unfold Tunnel.userDataScript
            have hmid : Tunnel.userDataPart2 =
                " >> /etc/ecs/ecs.config\n\n# Install cloudflared (ARM64)\ncurl -L https://github.com/cloudflare/cloudflared/releases/latest/download/cloudflared-linux-arm64 -o /usr/local/bin/cloudflared\nchmod +x /usr/local/bin/cloudflared\n\ncat > /etc/systemd/system/cloudflared.service << EOF\n[Unit]\nDescription=Cloudflare Tunnel\nAfter=network.target\n\n[Service]\nType=simple\nExecStart=/usr/local/bin/cloudflared tunnel --no-autoupdate run " ++
                "--token " := rfl
            rw [hmid]
            simp only [strAppend_assoc]

/-- Witness for C8 (amended): the three parts applied to concrete
inputs: a config with no override and a working checkout, a config with
the tunnel secret missing, and a completed concrete build. -/
theorem C8_witness :
    Tunnel.serverImage (fun _ => none) (fun _ => some "abc1234\n") =
      Tunnel.ECR_REGISTRY ++ "/picouncil-server:" ++ jsTrim "abc1234\n"
    ∧ Tunnel.build
        { config := fun k => if k = "cloudflareTunnelSecret" then none else some "v",
          git := fun _ => some "abc1234\n", clusterName := "picouncil-cluster",
          tunnelToken := "tok" } =
        Except.error "missing required configuration variable: cloudflareTunnelSecret"
    ∧ ∃ before after : String,
        Tunnel.Output.userData
          { serverImage := "v", logs := [ { level := LogLevel.info, msg := "Server image: v" } ],
            decls := Tunnel.graph,
            params := [ { resourceName := "picouncil-DATABASE_URL", paramName := "/picouncil/DATABASE_URL",
                          paramType := "SecureString", value := "v" },
                        { resourceName := "picouncil-JWT_SECRET", paramName := "/picouncil/JWT_SECRET",
                          paramType := "SecureString", value := "v" } ],
            env := Tunnel.containerEnv, secretRefs := Tunnel.containerSecrets,
            instanceType := "v", userData := Tunnel.userDataScript "picouncil-cluster" "tok" } =
          before ++ ("--token " ++ "tok") ++ after :=
  ⟨C8_missing_secret_aborts.1 _ _ rfl rfl,
   C8_missing_secret_aborts.2.1 _ "v" "v" (by decide) (by decide) (by decide),
   C8_missing_secret_aborts.2.2
     { config := fun _ => some "v", git := fun _ => some "abc1234\n",
       clusterName := "picouncil-cluster", tunnelToken := "tok" } _ rfl⟩
